import Mathlib

/-!
Shallow embedding of `src/main.rs` (the `sqlite_from_struct!` macro, the two
struct instantiations `User` and `Product`, and `main`), together with
spec-side definitions used for refinement claims.

The macro, expanded for a struct with name `struct_name` and fields
`(field_name, field_type)` in declaration order, builds a SQL string:
type names are mapped to SQL types by a string match (`sql_type`), each field
contributes a line `"    <name> <sqltype>,\n"` (with
`PRIMARY KEY AUTOINCREMENT` inserted when the field is named `id` and its SQL
type is `INTEGER`), a trailing `",\n"` is removed with two `pop` calls guarded
by `ends_with`, and the statement is closed with `"\n);"`.
-/

namespace SqliteFromStruct

/-- Embedding of Rust `str::to_lowercase` as used on the ASCII struct names
in `main.rs` (`stringify!($struct_name).to_lowercase()`). -/
def to_lowercase (s : String) : String := ⟨s.data.map Char.toLower⟩

/-- Embedding of Rust `str::ends_with` (suffix test on the character
sequence). -/
def ends_with (s suffix : String) : Bool := suffix.data.isSuffixOf s.data

/-- Embedding of Rust `String::pop` as used in `main.rs` (its return value is
discarded there, so we keep only the shortened string). -/
def pop (s : String) : String := ⟨s.data.dropLast⟩

/-- The type-name → SQL-type match of `main.rs` lines 65–72. -/
def sql_type (type_name : String) : String :=
  match type_name with
  | "i32" | "i64" | "u32" | "u64" | "isize" | "usize" => "INTEGER"
  | "f32" | "f64" => "REAL"
  | "String" | "&str" => "TEXT"
  | "bool" => "INTEGER"
  | "Vec<u8>" => "BLOB"
  | _ => "TEXT"

/-- The column text between the fixed `"    "` indentation and the `",\n"`
separator pushed for one field (`main.rs` lines 74–79): the primary-key
branch fires when the column is named `id` and its SQL type is `INTEGER`. -/
def column_fragment (column_name type_name : String) : String :=
  let s := sql_type type_name
  if column_name = "id" ∧ s = "INTEGER" then
    column_name ++ " " ++ s ++ " PRIMARY KEY AUTOINCREMENT"
  else
    column_name ++ " " ++ s

/-- The full string pushed onto `create_sql` for one field; equals
`format!("    {} {} PRIMARY KEY AUTOINCREMENT,\n", ..)` in the primary-key
branch and `format!("    {} {},\n", ..)` otherwise. -/
def column_line (column_name type_name : String) : String :=
  "    " ++ column_fragment column_name type_name ++ ",\n"

/-- `main.rs` line 54: table name derived from the struct name
(lower-cased, with `"s"` appended). -/
def table_name (struct_name : String) : String :=
  to_lowercase struct_name ++ "s"

/-- The SQL-string assembly of `create_table` (`main.rs` lines 54–89): the
header, one pushed line per field in declaration order, the guarded
double `pop` removing a trailing `",\n"`, and the closing `"\n);"`.
A field is a `(field_name, stringified field_type)` pair. -/
def create_sql (struct_name : String) (fields : List (String × String)) : String :=
  let create0 := "CREATE TABLE IF NOT EXISTS " ++ table_name struct_name ++ " (\n"
  let create1 := fields.foldl (fun acc f => acc ++ column_line f.1 f.2) create0
  let create2 := if ends_with create1 ",\n" then pop (pop create1) else create1
  create2 ++ "\n);"

/-- The field list of the `User` struct (`main.rs` lines 112–118), with each
type as `stringify!` renders it. -/
def user_fields : List (String × String) :=
  [("id", "i32"), ("name", "String"), ("email", "String"),
   ("age", "u32"), ("is_active", "bool")]

/-- The field list of the `Product` struct (`main.rs` lines 125–131), with
each type as `stringify!` renders it. -/
def product_fields : List (String × String) :=
  [("id", "i32"), ("name", "String"), ("price", "f64"),
   ("in_stock", "bool"), ("image_data", "Vec<u8>")]

/-- A connection oracle that fails the statement compiled from `User` with a
`DbError` message and accepts every other statement (used to exercise the
error path of `main`). -/
def error_on_user (s : String) : Except String Unit :=
  if s = create_sql "User" user_fields then Except.error "disk I/O error"
  else Except.ok ()

/-! ### Spec-side definitions (for refinement claims)

These follow the spec's words (§3, §4.1, §4.2), to be compared with the
definitions above, which follow the source. -/

/-- The spec's semantic field types (§3 data model). -/
inductive SemanticType where
  | Integer
  | FloatingPoint
  | Text
  | Boolean
  | Blob
  | Unknown
deriving DecidableEq

/-- The spec §4.1 fixed table `mapType(semanticType) -> sqlType`. -/
def mapType : SemanticType → String
  | .Integer => "INTEGER"
  | .FloatingPoint => "REAL"
  | .Text => "TEXT"
  | .Boolean => "INTEGER"
  | .Blob => "BLOB"
  | .Unknown => "TEXT"

/-- The Rust integer type names: any signed/unsigned kind, any width
(the spec §4.1 row "Integer (any signed/unsigned, any width)"). -/
def rust_integer_type_names : List String :=
  ["i8", "i16", "i32", "i64", "i128", "isize",
   "u8", "u16", "u32", "u64", "u128", "usize"]

/-- Classification of a stringified Rust field type into the spec's semantic
types: integer kinds per §4.1's "any signed/unsigned, any width",
floating point per "any width" (`f32`/`f64`), text per "owned or borrowed
string", `bool`, and `Vec<u8>` per "raw byte sequence". -/
def semanticTypeOf (type_name : String) : SemanticType :=
  if type_name ∈ rust_integer_type_names then .Integer
  else if type_name ∈ ["f32", "f64"] then .FloatingPoint
  else if type_name ∈ ["String", "&str"] then .Text
  else if type_name = "bool" then .Boolean
  else if type_name = "Vec<u8>" then .Blob
  else .Unknown

/-- The spec's ColumnDefinition record (§3 data model). -/
structure ColumnDefinition where
  name : String
  sqlType : String
  isPrimaryKey : Bool
deriving DecidableEq

/-- The spec §4.2 column builder: resolve the SQL type via the source's type
match, and mark the primary key when the field is named `id` and resolves to
`INTEGER`. -/
def buildColumn (field_name type_name : String) : ColumnDefinition :=
  let s := sql_type type_name
  { name := field_name, sqlType := s,
    isPrimaryKey := field_name = "id" ∧ s = "INTEGER" }

/-- The column lines of a DDL statement joined with `",\n"` (no trailing
separator): the shape the compiled statement's column list takes after the
source's trailing-comma cleanup. -/
def joined_columns : List (String × String) → String
  | [] => ""
  | [f] => "    " ++ column_fragment f.1 f.2
  | f :: g :: rest => "    " ++ column_fragment f.1 f.2 ++ ",\n" ++ joined_columns (g :: rest)

/-- The concatenation of the pushed column lines of a schema, in declaration
order (the part of `create_sql` built by the per-field loop). -/
def pushed_columns : List (String × String) → String
  | [] => ""
  | f :: rest => column_line f.1 f.2 ++ pushed_columns rest

/-- Marker used to read a primary-key constraint off a compiled column
fragment: the fragment text the primary-key branch appends. -/
def pk_marker : String := "PRIMARY KEY AUTOINCREMENT"

/-- The fields of a schema whose compiled column fragment carries the
primary-key constraint. -/
def pk_columns (fields : List (String × String)) : List (String × String) :=
  fields.filter (fun f => ends_with (column_fragment f.1 f.2) pk_marker)

/-! ### Model of the database engine (for the schema applier)

`create_table` hands the compiled statement to `rusqlite`'s
`Connection.execute` (`main.rs` line 97); the engine itself is not part of
this repository's sources. -/

/-- A database: the tables that exist, each with its column fragments, in
creation order. -/
structure DbState where
  tables : List (String × List String)
deriving DecidableEq

/-- Modelled from the spec: the engine's execution of a
`CREATE TABLE IF NOT EXISTS` statement (performed by `rusqlite`'s
`Connection.execute`, which is outside `src/`). Per §4.4, creating the table
mutates the database if no table of that name exists, and is a no-op
"confirmed by the engine" when it already does; either way the call
succeeds. -/
def exec_create_if_not_exists (db : DbState) (tn : String) (cols : List String) :
    DbState × Except String Unit :=
  if (db.tables.map Prod.fst).contains tn then (db, .ok ())
  else (⟨db.tables ++ [(tn, cols)]⟩, .ok ())

/-- Applying a struct's compiled schema to a database: the table name and the
derived column fragments are handed to the engine. -/
def apply_schema (db : DbState) (struct_name : String)
    (fields : List (String × String)) : DbState × Except String Unit :=
  exec_create_if_not_exists db (table_name struct_name)
    (fields.map (fun f => column_fragment f.1 f.2))

/-! ### The event trace of `create_table` and `main` (`main.rs` 50–102, 135–156)

The observable actions are prints to stdout/stderr and `execute` calls on the
connection; the connection's responses are abstracted as an oracle from SQL
text to a result. -/

/-- One observable action of the program. -/
inductive Event where
  | execute (sql : String)
  | stdout (msg : String)
  | stderr (msg : String)
deriving DecidableEq

/-- The event trace and result of `create_table` (`main.rs` lines 50–102):
print the generated SQL, execute it (the `?` operator propagates an engine
error), and on success print the confirmation. -/
def create_table_run (struct_name : String) (fields : List (String × String))
    (exec : String → Except String Unit) : List Event × Except String Unit :=
  let sql := create_sql struct_name fields
  let pre := [Event.stdout "--- Generated SQL ---", Event.stdout sql,
              Event.stdout "---------------------", Event.execute sql]
  match exec sql with
  | .error e => (pre, .error e)
  | .ok _ =>
    (pre ++ [Event.stdout ("Successfully created table '" ++ table_name struct_name ++ "'.")],
     .ok ())

/-- The event trace of `main` after the connection opened (`main.rs` lines
146–155): run `User::create_table`, report its outcome, then run
`Product::create_table` on the same connection and report its outcome. -/
def main_run (exec : String → Except String Unit) : List Event :=
  let r1 := create_table_run "User" user_fields exec
  let rep1 := match r1.2 with
    | .ok _ => Event.stdout "User table creation successful.\n"
    | .error e => Event.stderr ("Error creating user table: " ++ e ++ "\n")
  let r2 := create_table_run "Product" product_fields exec
  let rep2 := match r2.2 with
    | .ok _ => Event.stdout "Product table creation successful."
    | .error e => Event.stderr ("Error creating product table: " ++ e)
  r1.1 ++ [rep1] ++ r2.1 ++ [rep2]

/-! ### Structural lemmas about the SQL-string assembly -/

theorem foldl_push (fields : List (String × String)) (acc : String) :
    fields.foldl (fun a f => a ++ column_line f.1 f.2) acc = acc ++ pushed_columns fields := by
  induction fields generalizing acc with
  | nil => simp [pushed_columns]
  | cons f rest ih => simp [pushed_columns, List.foldl_cons, ih, String.append_assoc]

theorem pushed_eq_joined (f : String × String) (rest : List (String × String)) :
    pushed_columns (f :: rest) = joined_columns (f :: rest) ++ ",\n" := by
  induction rest generalizing f with
  | nil => simp [pushed_columns, joined_columns, column_line, String.append_assoc]
  | cons g rest ih =>
    show column_line f.1 f.2 ++ pushed_columns (g :: rest) = _
    rw [ih g]
    simp [joined_columns, column_line, String.append_assoc]

theorem isPrefixOf_append_self (l t : List Char) : l.isPrefixOf (l ++ t) = true := by
  induction l with
  | nil => simp
  | cons a as ih => simp [List.isPrefixOf_cons₂, ih]

theorem ends_with_comma_nl (s : String) (m : List Char) (h : s.data = m ++ [',', '\n']) :
    ends_with s ",\n" = true := by
  have hd : (",\n" : String).data = [',', '\n'] := rfl
  simp only [ends_with, List.isSuffixOf, h, hd, List.reverse_append]
  exact isPrefixOf_append_self [',', '\n'].reverse m.reverse

theorem ends_with_open_nl (s : String) (m : List Char) (h : s.data = m ++ ['(', '\n']) :
    ends_with s ",\n" = false := by
  have hd : (",\n" : String).data = [',', '\n'] := rfl
  simp only [ends_with, List.isSuffixOf, h, hd, List.reverse_append]
  show List.isPrefixOf ['\n', ','] ('\n' :: '(' :: m.reverse) = false
  simp [List.isPrefixOf_cons₂]

theorem pop_pop_eq (s : String) (m : List Char) (h : s.data = m ++ [',', '\n']) :
    pop (pop s) = ⟨m⟩ := by
  simp only [pop, h, List.dropLast_append_cons]
  norm_num [List.dropLast_concat]

theorem create_sql_eq (struct_name : String) (fields : List (String × String)) :
    create_sql struct_name fields =
      "CREATE TABLE IF NOT EXISTS " ++ table_name struct_name ++ " (\n" ++
        joined_columns fields ++ "\n);" := by
  cases fields with
  | nil =>
    unfold create_sql
    simp only [List.foldl_nil]
    rw [ends_with_open_nl _ (("CREATE TABLE IF NOT EXISTS " ++ table_name struct_name).data ++ [' '])]
    · simp [joined_columns]
    · show (("CREATE TABLE IF NOT EXISTS " : String) ++ table_name struct_name).data ++
        (" (\n" : String).data = _
      have : (" (\n" : String).data = [' ', '(', '\n'] := rfl
      simp [this]
  | cons f rest =>
    unfold create_sql
    simp only [foldl_push, pushed_eq_joined]
    have hdata :
        (("CREATE TABLE IF NOT EXISTS " ++ table_name struct_name ++ " (\n") ++
            (joined_columns (f :: rest) ++ ",\n")).data =
          (("CREATE TABLE IF NOT EXISTS " ++ table_name struct_name ++ " (\n").data ++
            (joined_columns (f :: rest)).data) ++ [',', '\n'] := by
      have : (",\n" : String).data = [',', '\n'] := rfl
      simp [this]
    rw [ends_with_comma_nl _ _ hdata, pop_pop_eq _ _ hdata]
    rw [if_pos rfl]
    apply String.ext
    simp

/-! ### Lemmas about the primary-key marking of column fragments -/

theorem isPrefixOf_false_head {a b : Char} (l1 l2 : List Char) (h : (a == b) = false) :
    List.isPrefixOf (a :: l1) (b :: l2) = false := by
  simp [List.isPrefixOf_cons₂, h]

theorem isPrefixOf_false_second {a b c : Char} (l1 l2 : List Char) (h : (b == c) = false) :
    List.isPrefixOf (a :: b :: l1) (a :: c :: l2) = false := by
  simp [List.isPrefixOf_cons₂, h]

theorem sql_type_mem (t : String) :
    sql_type t = "INTEGER" ∨ sql_type t = "REAL" ∨ sql_type t = "TEXT" ∨ sql_type t = "BLOB" := by
  unfold sql_type
  split <;> simp

theorem not_marker_of_sql (n : String) (s : String)
    (h : s = "INTEGER" ∨ s = "REAL" ∨ s = "TEXT" ∨ s = "BLOB") :
    ends_with (n ++ " " ++ s) pk_marker = false := by
  have hm : pk_marker.data.reverse =
      ['T','N','E','M','E','R','C','N','I','O','T','U','A',' ',
       'Y','E','K',' ','Y','R','A','M','I','R','P'] := rfl
  rcases h with h | h | h | h <;> subst h <;>
    simp only [ends_with, List.isSuffixOf, String.data_append, List.reverse_append, hm]
  · have hs : ("INTEGER" : String).data.reverse = ['R','E','G','E','T','N','I'] := rfl
    rw [hs]
    exact isPrefixOf_false_head _ _ (by decide)
  · have hs : ("REAL" : String).data.reverse = ['L','A','E','R'] := rfl
    rw [hs]
    exact isPrefixOf_false_head _ _ (by decide)
  · have hs : ("TEXT" : String).data.reverse = ['T','X','E','T'] := rfl
    rw [hs]
    exact isPrefixOf_false_second _ _ (by decide)
  · have hs : ("BLOB" : String).data.reverse = ['B','O','L','B'] := rfl
    rw [hs]
    exact isPrefixOf_false_head _ _ (by decide)

theorem pk_mark_iff (n t : String) :
    ends_with (column_fragment n t) pk_marker = true ↔ (n = "id" ∧ sql_type t = "INTEGER") := by
  unfold column_fragment
  by_cases h : n = "id" ∧ sql_type t = "INTEGER"
  · rw [if_pos h]
    obtain ⟨h1, h2⟩ := h
    subst h1
    rw [h2]
    decide
  · rw [if_neg h]
    rw [not_marker_of_sql n (sql_type t) (sql_type_mem t)]
    simp [h]

/-! ### The claims -/

/-- Claim C1, as stated: for every semantic field type the type mapper
returns the SQL type fixed by the §4.1 table — in particular every Integer
type of any signed/unsigned kind and any width maps to `"INTEGER"`. This is
false on the code: `i8` is a signed integer type, so the table sends it to
`"INTEGER"`, yet the source's match lists only the six names
`i32/i64/u32/u64/isize/usize` and `i8` falls to the default arm, which
returns `"TEXT"`. -/
theorem c1_any_width_counterexample :
    semanticTypeOf "i8" = SemanticType.Integer ∧
    mapType (semanticTypeOf "i8") = "INTEGER" ∧
    sql_type "i8" = "TEXT" ∧
    sql_type "i8" ≠ mapType (semanticTypeOf "i8") := by
  decide

/-- Claim C1, amended: the type mapper agrees with the §4.1 table on exactly
the type names the source's match lists — the integer names
`i32/i64/u32/u64/isize/usize` map to `"INTEGER"`, `f32/f64` to `"REAL"`,
`String`/`&str` to `"TEXT"`, `bool` to `"INTEGER"` and `Vec<u8>` to
`"BLOB"` — while the remaining integer widths (`i8`, `i16`, `i128`, `u8`,
`u16`, `u128`) fall through to the `"TEXT"` fallback. -/
theorem c1_type_mapper_amended :
    sql_type "i32" = "INTEGER" ∧ sql_type "i64" = "INTEGER" ∧
    sql_type "u32" = "INTEGER" ∧ sql_type "u64" = "INTEGER" ∧
    sql_type "isize" = "INTEGER" ∧ sql_type "usize" = "INTEGER" ∧
    sql_type "f32" = "REAL" ∧ sql_type "f64" = "REAL" ∧
    sql_type "String" = "TEXT" ∧ sql_type "&str" = "TEXT" ∧
    sql_type "bool" = "INTEGER" ∧ sql_type "Vec<u8>" = "BLOB" ∧
    sql_type "i8" = "TEXT" ∧ sql_type "i16" = "TEXT" ∧ sql_type "i128" = "TEXT" ∧
    sql_type "u8" = "TEXT" ∧ sql_type "u16" = "TEXT" ∧ sql_type "u128" = "TEXT" := by
  decide

/-- Claim C2: the column builder marks a field primary key exactly when the
field is named `id` and its resolved SQL type is `INTEGER`; a marked field's
column fragment is `"id INTEGER PRIMARY KEY AUTOINCREMENT"`, and every other
field's fragment is `"<name> <sqlType>"` with no constraint suffix. -/
theorem c2_column_builder (field_name type_name : String) :
    ((buildColumn field_name type_name).isPrimaryKey = true ↔
      (field_name = "id" ∧ sql_type type_name = "INTEGER")) ∧
    ((buildColumn field_name type_name).isPrimaryKey = true →
      column_fragment field_name type_name = "id INTEGER PRIMARY KEY AUTOINCREMENT") ∧
    ((buildColumn field_name type_name).isPrimaryKey = false →
      column_fragment field_name type_name = field_name ++ " " ++ sql_type type_name) ∧
    ((buildColumn field_name type_name).isPrimaryKey = false →
      ends_with (column_fragment field_name type_name) pk_marker = false) := by
  unfold buildColumn column_fragment
  by_cases h : field_name = "id" ∧ sql_type type_name = "INTEGER"
  · obtain ⟨h1, h2⟩ := h
    subst h1
    rw [h2]
    simp
  · have hf : ends_with (field_name ++ " " ++ sql_type type_name) pk_marker = false :=
      not_marker_of_sql field_name (sql_type type_name) (sql_type_mem type_name)
    simp only [decide_eq_false h, if_neg h]
    simp [h, hf]

/-- Witness for C2 at the concrete fields `(id, i32)` (primary-key branch)
and `(age, u32)` (plain branch). -/
theorem c2_column_builder_witness :
    column_fragment "id" "i32" = "id INTEGER PRIMARY KEY AUTOINCREMENT" ∧
    column_fragment "age" "u32" = "age" ++ " " ++ sql_type "u32" ∧
    ends_with (column_fragment "age" "u32") pk_marker = false :=
  ⟨(c2_column_builder "id" "i32").2.1 (by decide),
   (c2_column_builder "age" "u32").2.2.1 (by decide),
   (c2_column_builder "age" "u32").2.2.2 (by decide)⟩

/-- Claim C3: compiling the `Product` schema yields the DDL for table
`products` whose column list, in declaration order, is exactly
`id INTEGER PRIMARY KEY AUTOINCREMENT, name TEXT, price REAL,
in_stock INTEGER, image_data BLOB`. -/
theorem c3_product_schema_ddl :
    create_sql "Product" product_fields =
      "CREATE TABLE IF NOT EXISTS products (\n    id INTEGER PRIMARY KEY AUTOINCREMENT,\n    name TEXT,\n    price REAL,\n    in_stock INTEGER,\n    image_data BLOB\n);" ∧
    product_fields.map (fun f => column_fragment f.1 f.2) =
      ["id INTEGER PRIMARY KEY AUTOINCREMENT", "name TEXT", "price REAL",
       "in_stock INTEGER", "image_data BLOB"] := by
  constructor
  · decide
  · decide

/-- Claim C4: for every record name the derived table name is the record
name lower-cased with `"s"` appended (in particular `User` derives `users`
and `Product` derives `products`, with no irregular-plural handling), and
the compiled DDL statement opens with that derived name. -/
theorem c4_table_naming (record_name : String) (fields : List (String × String)) :
    table_name record_name = to_lowercase record_name ++ "s" ∧
    table_name "User" = "users" ∧ table_name "Product" = "products" ∧
    create_sql record_name fields =
      "CREATE TABLE IF NOT EXISTS " ++ (to_lowercase record_name ++ "s") ++ " (\n" ++
        joined_columns fields ++ "\n);" := by
  refine ⟨rfl, by decide, by decide, ?_⟩
  rw [create_sql_eq]
  rfl

/-- Claim C5, as stated: at most one column per compiled schema carries the
primary-key constraint. This is false on the code: the per-field loop marks
every field named `id` with resolved type `INTEGER` independently, so a
schema with two fields literally named `id` gets two
`PRIMARY KEY AUTOINCREMENT` columns. -/
theorem c5_single_pk_counterexample :
    (pk_columns [("id", "i32"), ("id", "i64")]).length = 2 ∧
    create_sql "T" [("id", "i32"), ("id", "i64")] =
      "CREATE TABLE IF NOT EXISTS ts (\n    id INTEGER PRIMARY KEY AUTOINCREMENT,\n    id INTEGER PRIMARY KEY AUTOINCREMENT\n);" := by
  constructor
  · decide
  · decide

/-- Claim C5, amended: the columns of a compiled schema carrying the
primary-key constraint are exactly the fields named `id` whose resolved type
is `INTEGER` (each such field qualifies independently, so several fields
literally named `id` each get the constraint); in particular when no field
named `id` resolves to `INTEGER`, no column carries a primary-key
constraint. -/
theorem c5_pk_columns_amended (fields : List (String × String)) :
    pk_columns fields =
      fields.filter (fun f => decide (f.1 = "id" ∧ sql_type f.2 = "INTEGER")) ∧
    ((∀ f ∈ fields, ¬(f.1 = "id" ∧ sql_type f.2 = "INTEGER")) → pk_columns fields = []) := by
  have heq : pk_columns fields =
      fields.filter (fun f => decide (f.1 = "id" ∧ sql_type f.2 = "INTEGER")) := by
    unfold pk_columns
    apply List.filter_congr
    intro f _
    by_cases h : f.1 = "id" ∧ sql_type f.2 = "INTEGER"
    · rw [decide_eq_true h]
      exact (pk_mark_iff f.1 f.2).mpr h
    · rw [decide_eq_false h, Bool.eq_false_iff]
      intro hb
      exact h ((pk_mark_iff f.1 f.2).mp hb)
  refine ⟨heq, fun h => ?_⟩
  rw [heq, List.filter_eq_nil_iff]
  intro f hf
  simp [h f hf]

/-- Witness for C5's amended claim on a schema with no `id` field: no column
carries the primary-key constraint. -/
theorem c5_pk_columns_amended_witness :
    pk_columns [("name", "String"), ("age", "u32")] = [] :=
  (c5_pk_columns_amended [("name", "String"), ("age", "u32")]).2 (by decide)

/-- Claim C6: the type mapper is total and never fails — it never returns an
empty string, and every type name classified as semantically unrecognized
maps to the `"TEXT"` fallback. -/
theorem c6_type_mapper_total (type_name : String) :
    sql_type type_name ≠ "" ∧
    (semanticTypeOf type_name = SemanticType.Unknown → sql_type type_name = "TEXT") := by
  unfold sql_type
  split <;> simp_all [semanticTypeOf, rust_integer_type_names]

/-- Witness for C6 at the unrecognized type name `char`. -/
theorem c6_type_mapper_total_witness :
    sql_type "char" ≠ "" ∧ sql_type "char" = "TEXT" :=
  ⟨(c6_type_mapper_total "char").1, (c6_type_mapper_total "char").2 (by decide)⟩

/-- Claim C7: DDL generation is pure and deterministic — compiling identical
record schemas yields byte-identical DDL strings. In this embedding
`create_sql` is a function of the record name and field list alone, so two
runs on equal inputs are equal. -/
theorem c7_compile_deterministic (name₁ name₂ : String)
    (fields₁ fields₂ : List (String × String))
    (h₁ : name₁ = name₂) (h₂ : fields₁ = fields₂) :
    create_sql name₁ fields₁ = create_sql name₂ fields₂ := by
  rw [h₁, h₂]

/-- Witness for C7: two compilations of the `User` schema coincide. -/
theorem c7_compile_deterministic_witness :
    create_sql "User" user_fields = create_sql "User" user_fields :=
  c7_compile_deterministic "User" "User" user_fields user_fields rfl rfl

/-- Claim C8: a record schema with zero fields compiles, without failing, to
`CREATE TABLE IF NOT EXISTS <table> (\n\n);` — an empty column list with no
dangling comma before the closing parenthesis. -/
theorem c8_empty_schema (record_name : String) :
    create_sql record_name [] =
      "CREATE TABLE IF NOT EXISTS " ++ table_name record_name ++ " (\n\n);" := by
  rw [create_sql_eq]
  apply String.ext
  simp [joined_columns]

/-- Claim C9: applying the same compiled schema twice to the same database
succeeds both times; the first application creates exactly one table with
the derived columns, and the second is a no-op thanks to
`IF NOT EXISTS` (engine semantics modelled from the spec §4.4). -/
theorem c9_apply_idempotent (db : DbState) (struct_name : String)
    (fields : List (String × String))
    (h : table_name struct_name ∉ db.tables.map Prod.fst) :
    (apply_schema db struct_name fields).2 = Except.ok () ∧
    (apply_schema (apply_schema db struct_name fields).1 struct_name fields).2 = Except.ok () ∧
    (apply_schema (apply_schema db struct_name fields).1 struct_name fields).1 =
      (apply_schema db struct_name fields).1 ∧
    ((apply_schema db struct_name fields).1.tables.filter
        (fun tb => tb.1 == table_name struct_name)) =
      [(table_name struct_name, fields.map (fun f => column_fragment f.1 f.2))] := by
  have hc : (db.tables.map Prod.fst).contains (table_name struct_name) = false := by
    rw [Bool.eq_false_iff]
    intro hcc
    exact h (List.elem_iff.mp hcc)
  have hr1 : apply_schema db struct_name fields =
      (⟨db.tables ++ [(table_name struct_name, fields.map (fun f => column_fragment f.1 f.2))]⟩,
       Except.ok ()) := by
    unfold apply_schema exec_create_if_not_exists
    rw [hc]
    simp
  have hc2 : (((db.tables ++
        [(table_name struct_name, fields.map (fun f => column_fragment f.1 f.2))]).map
          Prod.fst).contains (table_name struct_name)) = true := by
    simp [List.contains, List.elem_iff]
  have hr2 : apply_schema
      (⟨db.tables ++ [(table_name struct_name, fields.map (fun f => column_fragment f.1 f.2))]⟩ :
        DbState) struct_name fields =
      (⟨db.tables ++ [(table_name struct_name, fields.map (fun f => column_fragment f.1 f.2))]⟩,
       Except.ok ()) := by
    unfold apply_schema exec_create_if_not_exists
    rw [if_pos hc2]
  have h1 : db.tables.filter (fun tb => tb.1 == table_name struct_name) = [] := by
    rw [List.filter_eq_nil_iff]
    intro tb htb
    simp only [beq_iff_eq]
    intro heq
    apply h
    rw [← heq]
    exact List.mem_map_of_mem Prod.fst htb
  rw [hr1]
  simp [hr2, h1]

/-- Witness for C9: applying the `User` schema twice to the empty
database. -/
theorem c9_apply_idempotent_witness :
    (apply_schema ⟨[]⟩ "User" user_fields).2 = Except.ok () ∧
    (apply_schema (apply_schema ⟨[]⟩ "User" user_fields).1 "User" user_fields).2 =
      Except.ok () ∧
    (apply_schema (apply_schema ⟨[]⟩ "User" user_fields).1 "User" user_fields).1 =
      (apply_schema ⟨[]⟩ "User" user_fields).1 ∧
    ((apply_schema ⟨[]⟩ "User" user_fields).1.tables.filter
        (fun tb => tb.1 == table_name "User")) =
      [(table_name "User", user_fields.map (fun f => column_fragment f.1 f.2))] :=
  c9_apply_idempotent ⟨[]⟩ "User" user_fields (by simp)

/-- Claim C10: in `main`, a failure of the first table application does not
abort the program — the `Product` statement is still executed on the same
connection, and each outcome is reported independently (the user error on
stderr, the product outcome by its own match). -/
theorem c10_error_isolation (exec : String → Except String Unit) (e : String)
    (h : exec (create_sql "User" user_fields) = .error e) :
    Event.execute (create_sql "Product" product_fields) ∈ main_run exec ∧
    Event.stderr ("Error creating user table: " ++ e ++ "\n") ∈ main_run exec ∧
    (exec (create_sql "Product" product_fields) = .ok () →
      Event.stdout "Product table creation successful." ∈ main_run exec) ∧
    (∀ e2, exec (create_sql "Product" product_fields) = .error e2 →
      Event.stderr ("Error creating product table: " ++ e2) ∈ main_run exec) := by
  cases hp : exec (create_sql "Product" product_fields) <;>
    simp [main_run, create_table_run, h, hp]

/-- Witness for C10 with the oracle that fails the `User` statement and
accepts the `Product` statement: the product statement is still executed,
the user error is reported, and the product success is reported. -/
theorem c10_error_isolation_witness :
    Event.execute (create_sql "Product" product_fields) ∈ main_run error_on_user ∧
    Event.stderr ("Error creating user table: " ++ "disk I/O error" ++ "\n") ∈
      main_run error_on_user ∧
    Event.stdout "Product table creation successful." ∈ main_run error_on_user := by
  have h := c10_error_isolation error_on_user "disk I/O error" (by simp [error_on_user])
  exact ⟨h.1, h.2.1, h.2.2.1 (by unfold error_on_user; rw [if_neg (by decide)])⟩

end SqliteFromStruct
